import Mathlib

/-!
Verification of the GAIU 4 task-orchestration system against its design
document. The frontend pages (dashboard, urgence mode) and the shared type
definitions are embedded directly from the TypeScript sources; the core
engine components (StateMachine, AgentRegistry, DataVault, Orchestrator)
are declared by the repository but their implementation modules are not
present, so they are modelled from the specification text, as flagged on
each definition.
-/

namespace GAIU

/-- Task lifecycle states, from the frontend type definitions
(`TaskState` enum): exactly eight states. -/
inductive TaskState where
  | created
  | pending
  | in_progress
  | awaiting_documents
  | under_review
  | completed
  | failed
  | cancelled
deriving DecidableEq, Repr, Fintype

/-- Task priorities, from the frontend type definitions (`TaskPriority`). -/
inductive TaskPriority where
  | urgent
  | high
  | medium
  | low
deriving DecidableEq, Repr, Fintype

/-- Agent domains, from the frontend type definitions (`AgentType`). -/
inductive AgentType where
  | fiscal
  | health
  | mobility
  | housing
  | employment
deriving DecidableEq, Repr, Fintype

/-- An uploaded document reference, from the frontend `Document` interface.
Only the fields consumed by the embedded functions are carried (`id` and
`documentType`); the TypeScript interface compares `documentType` against
plain strings, so it is modelled as `String`. -/
structure Document where
  id : String
  documentType : String
deriving DecidableEq, Repr

/-- A task, from the frontend `Task` interface and specification section 3.
Timestamps are modelled as integer milliseconds; `metadata` is an opaque
key-value list. Purely presentational fields not consumed by any embedded
function are omitted. -/
structure Task where
  id : String
  title : String
  state : TaskState
  priority : TaskPriority
  progress : Nat
  updatedAt : Int
  deadline : Option Int
  completedAt : Option Int
  errorMessage : Option String
  requiredDocuments : List String
  submittedDocuments : List Document
  metadata : List (String × String)
deriving DecidableEq, Repr

/-- The actor recorded on an audit entry (`transitionedBy`). -/
inductive Actor where
  | system
  | user
deriving DecidableEq, Repr

/-- Audit entry for a state transition, from the frontend
`TaskStateTransition` interface and specification section 3. -/
structure TaskStateTransition where
  taskId : String
  fromState : Option TaskState
  toState : TaskState
  transitionedAt : Int
  transitionedBy : Actor
  context : List (String × String)
deriving DecidableEq, Repr

namespace StateMachine

/-- Modelled from the spec: the state-machine implementation module
(`state_machine.py`) is not among the sources, so the allowed-edge table is
taken from specification section 4.1. -/
def allowedTargets : TaskState → List TaskState
  | .created => [.pending, .cancelled]
  | .pending => [.in_progress, .awaiting_documents, .failed, .cancelled]
  | .awaiting_documents => [.in_progress, .cancelled]
  | .in_progress => [.under_review, .awaiting_documents, .failed, .cancelled]
  | .under_review => [.completed, .failed, .in_progress]
  | .completed => []
  | .failed => []
  | .cancelled => []

/-- Modelled from the spec: `validateTransition(current, target)` returns
whether the edge exists; it is a pure function of its two arguments. -/
def validateTransition (current target : TaskState) : Bool :=
  decide (target ∈ allowedTargets current)

/-- Modelled from the spec: the document-completeness invariant — every
required document kind is matched by the kind of some submitted document
("fails with DocumentsMissing when required documents are unmet"). -/
def documentsComplete (task : Task) : Bool :=
  task.requiredDocuments.all
    (fun doc => task.submittedDocuments.any (fun submitted => submitted.documentType == doc))

/-- Errors raised by the state machine (specification section 7). -/
inductive Error where
  | InvalidTransition
  | DocumentsMissing
deriving DecidableEq, Repr

/-- Modelled from the spec: `apply(task, target, actor, context)` checks the
edge, checks document completeness when leaving AWAITING_DOCUMENTS toward a
different state, sets `updatedAt`, sets `completedAt` only on entering
COMPLETED, and emits a `TaskStateTransition` record. -/
def apply (task : Task) (target : TaskState) (actor : Actor)
    (context : List (String × String)) (time : Int) :
    Except Error (Task × TaskStateTransition) :=
  if ¬ validateTransition task.state target then
    .error .InvalidTransition
  else if task.state = .awaiting_documents ∧ target ≠ .awaiting_documents ∧
      ¬ documentsComplete task then
    .error .DocumentsMissing
  else
    .ok ({ task with
            state := target
            updatedAt := time
            completedAt := if target = .completed then some time else task.completedAt },
         { taskId := task.id
           fromState := some task.state
           toState := target
           transitionedAt := time
           transitionedBy := actor
           context := context })

end StateMachine

/-- The edge list of specification section 4.1, written out pair by pair. -/
def specEdges : List (TaskState × TaskState) :=
  [(.created, .pending), (.created, .cancelled),
   (.pending, .in_progress), (.pending, .awaiting_documents),
   (.pending, .failed), (.pending, .cancelled),
   (.awaiting_documents, .in_progress), (.awaiting_documents, .cancelled),
   (.in_progress, .under_review), (.in_progress, .awaiting_documents),
   (.in_progress, .failed), (.in_progress, .cancelled),
   (.under_review, .completed), (.under_review, .failed),
   (.under_review, .in_progress)]

/-- The eight task lifecycle states, in declaration order. -/
def allTaskStates : List TaskState :=
  [.created, .pending, .in_progress, .awaiting_documents, .under_review,
   .completed, .failed, .cancelled]

namespace AgentRegistry

/-- Errors raised by the agent registry (specification section 4.2). -/
inductive Error where
  | DuplicateAgent
  | AgentNotFound
deriving DecidableEq, Repr

/-- Modelled from the spec: the agent-registry module (`agent_registry.py`)
is not among the sources; the registry is a map from `AgentType` to a
registered agent implementation, per section 4.2 and the design notes. -/
def Registry (α : Type) : Type := AgentType → Option α

/-- Modelled from the spec: `register(agentType, agent)` fails with
`DuplicateAgent` if an agent is already present, unless the explicit
`replace` override is used. -/
def Registry.registerAgent {α : Type} (reg : Registry α) (agentType : AgentType)
    (agent : α) (replace : Bool) : Except Error (Registry α) :=
  if (reg agentType).isSome ∧ replace = false then
    .error .DuplicateAgent
  else
    .ok (fun t => if t = agentType then some agent else reg t)

/-- Modelled from the spec: `resolve(agentType)` returns the registered
agent or fails with `AgentNotFound`. -/
def Registry.resolve {α : Type} (reg : Registry α) (agentType : AgentType) :
    Except Error α :=
  match reg agentType with
  | some agent => .ok agent
  | none => .error .AgentNotFound

end AgentRegistry

namespace DataVault

/-- Sensitivity tiers for vault records (specification section 3). -/
inductive DataClassification where
  | publicTier
  | internalTier
  | secretTier
deriving DecidableEq, Repr

/-- A stored vault record (specification section 3): ciphertext plus the
nonce and key version it was written under. Bytes are naturals below 256. -/
structure VaultRecord where
  ownerId : String
  classification : DataClassification
  ciphertext : List Nat
  nonce : Nat
  keyVersion : Nat
  createdAt : Int
deriving DecidableEq, Repr

/-- Errors raised by the vault (specification sections 4.4 and 7). -/
inductive Error where
  | AccessDenied
  | EncryptionError
  | RecordNotFound
deriving DecidableEq, Repr

/-- Modelled from the spec: vault errors are never treated as retriable
(section 7: "AccessDenied / EncryptionError ... never retried"). -/
def Error.retriable : Error → Bool := fun _ => false

/-- Modelled from the spec: the whole vault state — stored records keyed by
record id, fresh-id and fresh-nonce counters, the active key version, and
the key material per key version and classification tier. -/
structure VaultState where
  records : List (Nat × VaultRecord)
  nextId : Nat
  nextNonce : Nat
  activeKeyVersion : Nat
  keyMaterial : Nat → DataClassification → Nat

/-- One byte encrypted under the combined key/nonce stream value `s`. -/
def encByte (s b : Nat) : Nat := (b + s) % 256

/-- Inverse of `encByte` on bytes below 256. -/
def decByte (s b : Nat) : Nat := (b + (256 - s % 256)) % 256

/-- Modelled from the spec: the authenticated-encryption cipher
(AES-256-GCM in the design) is abstracted as a keyed byte-stream cipher
with an appended one-byte integrity tag over the encrypted body. -/
def encrypt (key nonce : Nat) (payload : List Nat) : List Nat :=
  let body := payload.map (encByte (key + nonce))
  body ++ [body.sum % 256]

/-- Modelled from the spec: authenticated decryption — recompute the
integrity tag over the body and fail (`none`) on any mismatch, so tampered
ciphertext is never decrypted into a payload. -/
def decrypt (key nonce : Nat) (ciphertext : List Nat) : Option (List Nat) :=
  match ciphertext.getLast? with
  | none => none
  | some tag =>
    let body := ciphertext.dropLast
    if tag = body.sum % 256 then some (body.map (decByte (key + nonce)))
    else none

/-- Modelled from the spec: `store(ownerId, payload, classification)`
serializes the payload (bytes), takes a fresh nonce, encrypts under the key
material of the current key version for the requested tier, and persists
ciphertext, nonce and key version; it returns the new record id. -/
def store (vault : VaultState) (ownerId : String) (payload : List Nat)
    (classification : DataClassification) (time : Int) : Nat × VaultState :=
  let key := vault.keyMaterial vault.activeKeyVersion classification
  let record : VaultRecord :=
    { ownerId := ownerId
      classification := classification
      ciphertext := encrypt key vault.nextNonce payload
      nonce := vault.nextNonce
      keyVersion := vault.activeKeyVersion
      createdAt := time }
  (vault.nextId,
   { vault with
      records := (vault.nextId, record) :: vault.records
      nextId := vault.nextId + 1
      nextNonce := vault.nextNonce + 1 })

/-- Modelled from the spec: `retrieve(recordId, requesterId)` loads the
record, fails with `AccessDenied` if the requester is not the owner —
before any decryption — and otherwise decrypts under the stored key
version, failing with `EncryptionError` on tag mismatch. The second
component of the result records whether a decryption was attempted. -/
def retrieveT (vault : VaultState) (recordId : Nat) (requesterId : String) :
    Except Error (List Nat) × Bool :=
  match vault.records.lookup recordId with
  | none => (.error .RecordNotFound, false)
  | some record =>
    if requesterId ≠ record.ownerId then (.error .AccessDenied, false)
    else
      match decrypt (vault.keyMaterial record.keyVersion record.classification)
          record.nonce record.ciphertext with
      | some payload => (.ok payload, true)
      | none => (.error .EncryptionError, true)

/-- The payload-or-error part of `retrieveT`. -/
def retrieve (vault : VaultState) (recordId : Nat) (requesterId : String) :
    Except Error (List Nat) :=
  (retrieveT vault recordId requesterId).1

/-- Modelled from the spec: tampering with the persisted ciphertext of one
record — the byte at position `i` is overwritten with `b`. -/
def tamper (vault : VaultState) (recordId : Nat) (i : Nat) (b : Nat) : VaultState :=
  { vault with
      records := vault.records.map (fun entry =>
        if entry.1 = recordId then
          (entry.1, { entry.2 with ciphertext := entry.2.ciphertext.set i b })
        else entry) }

end DataVault

namespace Orchestrator

/-- Modelled from the spec: the two kinds of task mutation the Orchestrator
performs — applying the task changes returned by an agent's `processTask`
(progress within 0-100 and metadata, section 4.3 step 4), and a
StateMachine-validated transition, which on entering FAILED also captures
the error summary (section 4.3 steps 2 and 5). -/
inductive Op where
  | agentUpdate (newProgress : Nat) (newMetadata : List (String × String))
  | transition (target : TaskState) (message : Option String) (actor : Actor)
      (context : List (String × String)) (time : Int)

/-- Modelled from the spec: one Orchestrator-applied operation. Agent
progress updates keep `progress` monotonically non-decreasing and are
ignored once the task is in FAILED or CANCELLED (where progress freezes);
transitions go through `StateMachine.apply` and leave the task unchanged
when the state machine rejects them. -/
def applyOp (task : Task) (op : Op) : Task :=
  match op with
  | .agentUpdate newProgress newMetadata =>
    if task.state = .failed ∨ task.state = .cancelled then task
    else { task with
            progress := max task.progress (min newProgress 100)
            metadata := newMetadata }
  | .transition target message actor context time =>
    match StateMachine.apply task target actor context time with
    | .ok result =>
      if target = .failed then { result.1 with errorMessage := message } else result.1
    | .error _ => task

/-- A sequence of Orchestrator-applied operations, in order. -/
def run (task : Task) (ops : List Op) : Task :=
  ops.foldl applyOp task

/-- Modelled from the spec: the per-task-id execution locks of section 5,
as the set of task ids whose lock is currently held. -/
structure LockState where
  locked : List Nat
deriving DecidableEq, Repr

/-- Outcome of one dispatch attempt: it either starts the full run or is
rejected with `DispatchInProgress`. -/
inductive DispatchOutcome where
  | started
  | rejected
deriving DecidableEq, Repr

/-- Modelled from the spec: the atomic lock-acquisition step at the start
of `dispatch(taskId)` — if the per-task lock is held the call is rejected
with `DispatchInProgress` and nothing is queued (the state is unchanged);
otherwise the lock is taken and the run starts. -/
def tryDispatch (s : LockState) (taskId : Nat) : LockState × DispatchOutcome :=
  if taskId ∈ s.locked then (s, .rejected)
  else ({ locked := taskId :: s.locked }, .started)

/-- Modelled from the spec: lock release on completion or failure of the
whole dispatch sequence. -/
def releaseLock (s : LockState) (taskId : Nat) : LockState :=
  { locked := s.locked.filter (fun t => t != taskId) }

/-- A serialization of concurrent dispatch attempts: each attempt performs
its atomic lock acquisition in some order, with no release in between. -/
def runDispatchAttempts (s : LockState) : List Nat → LockState × List DispatchOutcome
  | [] => (s, [])
  | taskId :: rest =>
    let first := tryDispatch s taskId
    let others := runDispatchAttempts first.1 rest
    (others.1, first.2 :: others.2)

end Orchestrator

/-- The dashboard page's urgent-task collection
(`src/unnamed/part_001`, `DashboardPage`): tasks with priority URGENT whose
state is not COMPLETED. -/
def dashboardUrgentTasks (tasks : List Task) : List Task :=
  tasks.filter (fun task => task.priority == .urgent && task.state != .completed)

/-- The dashboard page's active-task collection: tasks whose state is
neither COMPLETED nor CANCELLED. -/
def dashboardActiveTasks (tasks : List Task) : List Task :=
  tasks.filter (fun task => task.state != .completed && task.state != .cancelled)

/-- One day in milliseconds, as in `enhanceUrgentTask`. -/
def millisecondsPerDay : Int := 1000 * 60 * 60 * 24

/-- Ceiling division on integers with positive divisor, as computed by
`Math.ceil(x / d)` in `enhanceUrgentTask`. -/
def ceilDivInt (a b : Int) : Int := -((-a).fdiv b)

/-- Days until the deadline as computed by `enhanceUrgentTask`
(`src/urgence-page.tsx`): ceiling of the millisecond difference divided by
one day, and 999 when the task has no deadline. -/
def daysUntilDeadlineOf (now : Int) (deadline : Option Int) : Int :=
  match deadline with
  | some d => ceilDivInt (d - now) millisecondsPerDay
  | none => 999

/-- A quick action of the urgence page (`UrgenceAction` interface). -/
structure UrgenceAction where
  id : String
  label : String
  icon : String
  priority : Nat
  completed : Bool
  estimatedTime : Nat
deriving DecidableEq, Repr

/-- An enhanced urgent task of the urgence page (`UrgenceTask` interface). -/
structure UrgenceTask where
  task : Task
  daysUntilDeadline : Int
  missingDocuments : List String
  estimatedTimeToComplete : Nat
  actions : List UrgenceAction
deriving DecidableEq, Repr

/-- Human-readable labels for document kinds (`getDocumentLabel` in
`src/urgence-page.tsx`), defaulting to the raw kind identifier. -/
def getDocumentLabel (docType : String) : String :=
  (List.lookup docType
    [("avis_imposition", "Avis d\u0027Imposition"),
     ("feuille_soins", "Feuille de Soins"),
     ("carte_grise", "Carte Grise"),
     ("justificatif_domicile", "Justificatif de Domicile"),
     ("bulletin_salaire", "Bulletin de Salaire")]).getD docType

/-- The missing documents computed by `enhanceUrgentTask`: required kinds
with no submitted document of a matching `documentType`. -/
def missingDocumentsOf (task : Task) : List String :=
  task.requiredDocuments.filter
    (fun doc => ! task.submittedDocuments.any
      (fun submitted => submitted.documentType == doc))

/-- The `enhanceUrgentTask` helper of `src/urgence-page.tsx`: days until
deadline, missing documents, one upload action per missing document (5
minutes each) plus a final review action (10 minutes), and the total
estimated time. -/
def enhanceUrgentTask (now : Int) (task : Task) : UrgenceTask :=
  let daysUntilDeadline := daysUntilDeadlineOf now task.deadline
  let missingDocuments := missingDocumentsOf task
  let actions : List UrgenceAction :=
    (missingDocuments.enum.map (fun indexed =>
      { id := "upload_" ++ indexed.2
        label := "Uploader " ++ getDocumentLabel indexed.2
        icon := "upload"
        priority := indexed.1 + 1
        completed := false
        estimatedTime := 5 }))
    ++ [{ id := "review"
          label := "Vérifier les informations"
          icon := "check"
          priority := 100
          completed := decide (task.progress > 80)
          estimatedTime := 10 }]
  { task := task
    daysUntilDeadline := daysUntilDeadline
    missingDocuments := missingDocuments
    estimatedTimeToComplete := (actions.map (fun action => action.estimatedTime)).sum
    actions := actions }

/-- The comparator of the urgence page's sort: ascending days until
deadline. -/
def urgenceDeadlineOrder (a b : UrgenceTask) : Prop :=
  a.daysUntilDeadline ≤ b.daysUntilDeadline

instance : DecidableRel urgenceDeadlineOrder :=
  fun a b => Int.decLe a.daysUntilDeadline b.daysUntilDeadline

instance : IsTotal UrgenceTask urgenceDeadlineOrder :=
  ⟨fun a b => Int.le_total a.daysUntilDeadline b.daysUntilDeadline⟩

instance : IsTrans UrgenceTask urgenceDeadlineOrder :=
  ⟨fun _ _ _ hab hbc => Int.le_trans hab hbc⟩

/-- The urgence page's urgent-task list (`UrgencePage` in
`src/urgence-page.tsx`): tasks with priority URGENT, enhanced, then sorted
by ascending `daysUntilDeadline`. -/
def urgencePageUrgentTasks (now : Int) (tasks : List Task) : List UrgenceTask :=
  List.insertionSort urgenceDeadlineOrder
    ((tasks.filter (fun task => task.priority == .urgent)).map (enhanceUrgentTask now))

/-- C1: `validateTransition(current, target)` is true exactly on the edges of
specification section 4.1; every pair whose source is COMPLETED, FAILED or
CANCELLED is rejected; and the lifecycle states are exactly the eight listed
ones. `validateTransition` is a pure Lean function of its two arguments, so
it mutates nothing. -/
theorem validateTransition_spec :
    (∀ current target : TaskState,
      StateMachine.validateTransition current target = true ↔
        (current, target) ∈ specEdges) ∧
    (∀ target : TaskState,
      StateMachine.validateTransition .completed target = false ∧
      StateMachine.validateTransition .failed target = false ∧
      StateMachine.validateTransition .cancelled target = false) ∧
    (∀ s : TaskState, s ∈ allTaskStates) ∧
    allTaskStates.length = 8 ∧ allTaskStates.Nodup := by
  refine ⟨by decide, by decide, by decide, by decide, by decide⟩

theorem DataVault.decByte_encByte (s b : Nat) (h : b < 256) : decByte s (encByte s b) = b := by
  unfold decByte encByte
  omega

theorem DataVault.mem_encrypt_body_lt (s : Nat) (payload : List Nat) :
    ∀ y ∈ payload.map (encByte s), y < 256 := by
  intro y hy
  simp only [List.mem_map] at hy
  obtain ⟨x, -, rfl⟩ := hy
  exact Nat.mod_lt _ (by norm_num)

theorem DataVault.decrypt_encrypt (key nonce : Nat) (payload : List Nat)
    (h : ∀ b ∈ payload, b < 256) :
    decrypt key nonce (encrypt key nonce payload) = some payload := by
  unfold encrypt decrypt
  simp only [List.getLast?_concat, List.dropLast_concat, if_pos rfl, List.map_map]
  have hcongr : ∀ b ∈ payload, (decByte (key + nonce) ∘ encByte (key + nonce)) b = id b :=
    fun b hb => decByte_encByte (key + nonce) b (h b hb)
  rw [List.map_congr_left hcongr, List.map_id]
  simp

theorem DataVault.sum_set (l : List Nat) : ∀ (i : Nat) (h : i < l.length) (b : Nat),
    (l.set i b).sum + l.get ⟨i, h⟩ = l.sum + b := by
  induction l with
  | nil => intro i h; exact absurd h (by simp)
  | cons a t ih =>
    intro i h b
    cases i with
    | zero => simp [List.sum_cons]; omega
    | succ n =>
      have hn : n < t.length := by simpa using h
      have := ih n hn b
      simp only [List.set, List.sum_cons, List.get_cons_succ]
      omega

theorem DataVault.decrypt_set_ne (key nonce : Nat) (payload : List Nat) (i : Nat) (b : Nat)
    (hi : i < (encrypt key nonce payload).length)
    (hb : b < 256)
    (hne : b ≠ (encrypt key nonce payload).get ⟨i, hi⟩) :
    decrypt key nonce ((encrypt key nonce payload).set i b) = none := by
  have hlen : (encrypt key nonce payload).length
      = (payload.map (encByte (key + nonce))).length + 1 := by
    unfold encrypt
    simp
  rcases Nat.lt_or_ge i (payload.map (encByte (key + nonce))).length with hlt | hge
  · -- a body byte was altered: the recomputed tag no longer matches
    have hset : (encrypt key nonce payload).set i b
        = (payload.map (encByte (key + nonce))).set i b
          ++ [(payload.map (encByte (key + nonce))).sum % 256] := by
      unfold encrypt
      rw [List.set_append, if_pos hlt]
    have hgetbody : (encrypt key nonce payload).get ⟨i, hi⟩
        = (payload.map (encByte (key + nonce))).get ⟨i, hlt⟩ := by
      unfold encrypt
      simp only [List.get_eq_getElem]
      exact List.getElem_append_left hlt
    have hbyte : (payload.map (encByte (key + nonce))).get ⟨i, hlt⟩ < 256 :=
      mem_encrypt_body_lt (key + nonce) payload _ (List.get_mem _ _ _)
    have hsum : ((payload.map (encByte (key + nonce))).set i b).sum
          + (payload.map (encByte (key + nonce))).get ⟨i, hlt⟩
        = (payload.map (encByte (key + nonce))).sum + b :=
      sum_set _ i hlt b
    rw [hset]
    unfold decrypt
    simp only [List.getLast?_concat, List.dropLast_concat]
    rw [if_neg]
    intro hcontra
    rw [hgetbody] at hne
    omega
  · -- the tag byte itself was altered: it no longer matches the body sum
    have hieq : i = (payload.map (encByte (key + nonce))).length := by omega
    have hset : (encrypt key nonce payload).set i b
        = payload.map (encByte (key + nonce)) ++ [b] := by
      unfold encrypt
      rw [List.set_append, if_neg (by omega)]
      subst hieq
      simp
    have hgettag : (encrypt key nonce payload).get ⟨i, hi⟩
        = (payload.map (encByte (key + nonce))).sum % 256 := by
      unfold encrypt
      simp only [List.get_eq_getElem]
      rw [List.getElem_append_right (by omega)]
      subst hieq
      simp
    rw [hset]
    unfold decrypt
    simp only [List.getLast?_concat, List.dropLast_concat]
    rw [if_neg]
    rw [hgettag] at hne
    exact hne

theorem DataVault.retrieveT_head (s : VaultState) (rid : Nat) (record : VaultRecord)
    (rest : List (Nat × VaultRecord)) (hrec : s.records = (rid, record) :: rest)
    (requesterId : String) :
    retrieveT s rid requesterId =
      if requesterId ≠ record.ownerId then (.error .AccessDenied, false)
      else
        match decrypt (s.keyMaterial record.keyVersion record.classification)
            record.nonce record.ciphertext with
        | some payload => (.ok payload, true)
        | none => (.error .EncryptionError, true) := by
  unfold retrieveT
  rw [hrec]
  simp [List.lookup]

/-- C2: storing a payload and retrieving it with the owning `ownerId`
returns the payload byte for byte; retrieving with any other requester
fails with `AccessDenied` and attempts no decryption (the flag component of
`retrieveT` stays `false`). -/
theorem dataVault_roundtrip_spec :
    ∀ (vault : DataVault.VaultState) (ownerId : String) (payload : List Nat)
      (classification : DataVault.DataClassification) (time : Int)
      (requesterId : String),
      (∀ b ∈ payload, b < 256) →
      DataVault.retrieve (DataVault.store vault ownerId payload classification time).2
          (DataVault.store vault ownerId payload classification time).1 ownerId
        = .ok payload ∧
      (requesterId ≠ ownerId →
        DataVault.retrieveT (DataVault.store vault ownerId payload classification time).2
            (DataVault.store vault ownerId payload classification time).1 requesterId
          = (.error .AccessDenied, false)) := by
  intro vault ownerId payload classification time requesterId hbytes
  refine ⟨?_, ?_⟩
  · unfold DataVault.retrieve DataVault.retrieveT DataVault.store
    simp only [List.lookup, beq_self_eq_true]
    rw [if_neg (by simp)]
    rw [DataVault.decrypt_encrypt _ _ _ hbytes]
  · intro hreq
    unfold DataVault.retrieveT DataVault.store
    simp only [List.lookup, beq_self_eq_true]
    rw [if_pos hreq]

/-- Witness for C2 at a concrete vault, payload and requester pair. -/
theorem dataVault_roundtrip_witness :
    DataVault.retrieve
        (DataVault.store
          { records := [], nextId := 0, nextNonce := 0, activeKeyVersion := 0,
            keyMaterial := fun _ _ => 7 }
          "alice" [10, 20, 30] .secretTier 0).2
        (DataVault.store
          { records := [], nextId := 0, nextNonce := 0, activeKeyVersion := 0,
            keyMaterial := fun _ _ => 7 }
          "alice" [10, 20, 30] .secretTier 0).1 "alice"
      = .ok [10, 20, 30] ∧
    DataVault.retrieveT
        (DataVault.store
          { records := [], nextId := 0, nextNonce := 0, activeKeyVersion := 0,
            keyMaterial := fun _ _ => 7 }
          "alice" [10, 20, 30] .secretTier 0).2
        (DataVault.store
          { records := [], nextId := 0, nextNonce := 0, activeKeyVersion := 0,
            keyMaterial := fun _ _ => 7 }
          "alice" [10, 20, 30] .secretTier 0).1 "bob"
      = (.error .AccessDenied, false) := by
  have h := dataVault_roundtrip_spec
    { records := [], nextId := 0, nextNonce := 0, activeKeyVersion := 0,
      keyMaterial := fun _ _ => 7 }
    "alice" [10, 20, 30] .secretTier 0 "bob" (by decide)
  exact ⟨h.1, h.2 (by decide)⟩

/-- C6: altering any single byte of a stored record's persisted ciphertext
makes `retrieve` fail with `EncryptionError` — the tampered ciphertext is
never decrypted into a payload — and `EncryptionError` is not retriable. -/
theorem dataVault_tamper_spec :
    ∀ (vault : DataVault.VaultState) (ownerId : String) (payload : List Nat)
      (classification : DataVault.DataClassification) (time : Int) (i b : Nat)
      (hi : i < (DataVault.encrypt
          (vault.keyMaterial vault.activeKeyVersion classification)
          vault.nextNonce payload).length),
      b < 256 →
      b ≠ (DataVault.encrypt
          (vault.keyMaterial vault.activeKeyVersion classification)
          vault.nextNonce payload).get ⟨i, hi⟩ →
      DataVault.retrieve
          (DataVault.tamper (DataVault.store vault ownerId payload classification time).2
            (DataVault.store vault ownerId payload classification time).1 i b)
          (DataVault.store vault ownerId payload classification time).1 ownerId
        = .error .EncryptionError ∧
      DataVault.Error.retriable .EncryptionError = false := by
  intro vault ownerId payload classification time i b hi hb hne
  refine ⟨?_, rfl⟩
  have hrec : (DataVault.tamper (DataVault.store vault ownerId payload classification time).2
        (DataVault.store vault ownerId payload classification time).1 i b).records
      = (vault.nextId,
          { ownerId := ownerId
            classification := classification
            ciphertext := (DataVault.encrypt
                (vault.keyMaterial vault.activeKeyVersion classification)
                vault.nextNonce payload).set i b
            nonce := vault.nextNonce
            keyVersion := vault.activeKeyVersion
            createdAt := time })
        :: (vault.records.map (fun entry =>
              if entry.1 = vault.nextId then
                (entry.1, { entry.2 with ciphertext := entry.2.ciphertext.set i b })
              else entry)) := by
    unfold DataVault.tamper DataVault.store
    simp
  unfold DataVault.retrieve
  have hfst : (DataVault.store vault ownerId payload classification time).1
      = vault.nextId := rfl
  rw [hfst] at hrec ⊢
  rw [DataVault.retrieveT_head _ vault.nextId _ _ hrec]
  rw [if_neg (by simp)]
  have hdec := DataVault.decrypt_set_ne
    (vault.keyMaterial vault.activeKeyVersion classification) vault.nextNonce
    payload i b hi hb hne
  simp only [DataVault.tamper, DataVault.store, hdec]

/-- Witness for C6: flipping the first ciphertext byte of a concrete stored
record makes `retrieve` fail with `EncryptionError`. -/
theorem dataVault_tamper_witness :
    (5 : Nat) < 256 ∧
    DataVault.retrieve
        (DataVault.tamper
          (DataVault.store
            { records := [], nextId := 0, nextNonce := 0, activeKeyVersion := 0,
              keyMaterial := fun _ _ => 7 }
            "alice" [10, 20, 30] .secretTier 0).2
          (DataVault.store
            { records := [], nextId := 0, nextNonce := 0, activeKeyVersion := 0,
              keyMaterial := fun _ _ => 7 }
            "alice" [10, 20, 30] .secretTier 0).1 0 5)
        (DataVault.store
          { records := [], nextId := 0, nextNonce := 0, activeKeyVersion := 0,
            keyMaterial := fun _ _ => 7 }
          "alice" [10, 20, 30] .secretTier 0).1 "alice"
      = .error .EncryptionError := by
  have h := dataVault_tamper_spec
    { records := [], nextId := 0, nextNonce := 0, activeKeyVersion := 0,
      keyMaterial := fun _ _ => 7 }
    "alice" [10, 20, 30] .secretTier 0 0 5 (by decide) (by decide) (by decide)
  exact ⟨by decide, h.1⟩

/-- C7: `register` fails with `DuplicateAgent` exactly when an agent is
already registered and no `replace` override is given; with the override it
succeeds and the new agent is registered; `resolve` returns the registered
agent, or fails with `AgentNotFound` exactly when none is registered. -/
theorem agentRegistry_spec :
    (∀ (α : Type) (reg : AgentRegistry.Registry α) (agentType : AgentType)
        (agent : α) (replace : Bool),
      reg.registerAgent agentType agent replace = .error .DuplicateAgent ↔
        ((reg agentType).isSome = true ∧ replace = false)) ∧
    (∀ (α : Type) (reg : AgentRegistry.Registry α) (agentType : AgentType) (agent : α),
      ∃ reg', reg.registerAgent agentType agent true = .ok reg' ∧
        reg' agentType = some agent) ∧
    (∀ (α : Type) (reg : AgentRegistry.Registry α) (agentType : AgentType) (agent : α),
      reg.resolve agentType = .ok agent ↔ reg agentType = some agent) ∧
    (∀ (α : Type) (reg : AgentRegistry.Registry α) (agentType : AgentType),
      reg.resolve agentType = .error .AgentNotFound ↔ reg agentType = none) := by
  refine ⟨?_, ?_, ?_, ?_⟩
  · intro α reg agentType agent replace
    unfold AgentRegistry.Registry.registerAgent
    split
    · rename_i h
      exact iff_of_true rfl h
    · rename_i h
      exact iff_of_false (by simp) h
  · intro α reg agentType agent
    refine ⟨fun t => if t = agentType then some agent else reg t, ?_, by simp⟩
    unfold AgentRegistry.Registry.registerAgent
    simp
  · intro α reg agentType agent
    unfold AgentRegistry.Registry.resolve
    cases h : reg agentType <;> simp
  · intro α reg agentType
    unfold AgentRegistry.Registry.resolve
    cases h : reg agentType <;> simp

theorem StateMachine.apply_ok_fields (task : Task) (target : TaskState)
    (actor : Actor) (context : List (String × String)) (time : Int)
    (result : Task × TaskStateTransition)
    (h : StateMachine.apply task target actor context time = .ok result) :
    result.1.progress = task.progress ∧ result.1.state = target ∧
    result.1.errorMessage = task.errorMessage := by
  unfold StateMachine.apply at h
  split at h
  · exact absurd h (by simp)
  · split at h
    · exact absurd h (by simp)
    · injection h with h2
      subst h2
      simp

/-- C4: when a task with incomplete documents is leaving AWAITING_DOCUMENTS
along a valid edge toward another state, `apply` fails with
`DocumentsMissing`; conversely any successful `apply` out of
AWAITING_DOCUMENTS implies the document-completeness invariant held. -/
theorem documentsMissing_spec :
    (∀ (task : Task) (target : TaskState) (actor : Actor)
        (context : List (String × String)) (time : Int),
      StateMachine.documentsComplete task = false →
      task.state = .awaiting_documents →
      target ≠ .awaiting_documents →
      StateMachine.validateTransition task.state target = true →
      StateMachine.apply task target actor context time = .error .DocumentsMissing) ∧
    (∀ (task : Task) (target : TaskState) (actor : Actor)
        (context : List (String × String)) (time : Int)
        (result : Task × TaskStateTransition),
      StateMachine.apply task target actor context time = .ok result →
      task.state = .awaiting_documents →
      StateMachine.documentsComplete task = true) := by
  constructor
  · intro task target actor context time hdocs hstate htarget hvalid
    unfold StateMachine.apply
    rw [if_neg (by simp [hvalid])]
    rw [if_pos ⟨hstate, htarget, by simp [hdocs]⟩]
  · intro task target actor context time result h hstate
    unfold StateMachine.apply at h
    split at h
    · exact absurd h (by simp)
    · split at h
      · exact absurd h (by simp)
      · rename_i hvalid hcond
        rw [not_not] at hvalid
        have htarget : target ≠ .awaiting_documents := by
          intro he
          subst he
          rw [hstate] at hvalid
          exact absurd hvalid (by decide)
        cases hcomp : StateMachine.documentsComplete task with
        | true => rfl
        | false => exact absurd ⟨hstate, htarget, by simp [hcomp]⟩ hcond

/-- Witness for C4: a concrete task in AWAITING_DOCUMENTS missing a
required document cannot move to IN_PROGRESS. -/
theorem documentsMissing_witness :
    StateMachine.apply
        { id := "t1", title := "T", state := .awaiting_documents,
          priority := .high, progress := 30, updatedAt := 0, deadline := none,
          completedAt := none, errorMessage := none,
          requiredDocuments := ["avis_imposition"], submittedDocuments := [],
          metadata := [] }
        .in_progress .system [] 5
      = .error .DocumentsMissing := by
  exact documentsMissing_spec.1
    { id := "t1", title := "T", state := .awaiting_documents,
      priority := .high, progress := 30, updatedAt := 0, deadline := none,
      completedAt := none, errorMessage := none,
      requiredDocuments := ["avis_imposition"], submittedDocuments := [],
      metadata := [] }
    .in_progress .system [] 5 (by decide) rfl (by decide) (by decide)

theorem Orchestrator.applyOp_progress_le (task : Task) (op : Orchestrator.Op) :
    task.progress ≤ (Orchestrator.applyOp task op).progress := by
  cases op with
  | agentUpdate newProgress newMetadata =>
    simp only [Orchestrator.applyOp]
    split
    · exact le_refl _
    · exact le_sup_left
  | transition target message actor context time =>
    simp only [Orchestrator.applyOp]
    split
    · rename_i result heq
      have hf := StateMachine.apply_ok_fields task target actor context time result heq
      split
      · exact le_of_eq hf.1.symm
      · exact le_of_eq hf.1.symm
    · exact le_refl _

theorem Orchestrator.run_progress_le :
    ∀ (ops : List Orchestrator.Op) (task : Task),
      task.progress ≤ (Orchestrator.run task ops).progress
  | [], _ => le_refl _
  | op :: ops, task =>
    le_trans (Orchestrator.applyOp_progress_le task op)
      (Orchestrator.run_progress_le ops (Orchestrator.applyOp task op))

/-- C5: over any sequence of Orchestrator-applied operations `progress` is
monotonically non-decreasing; in FAILED or CANCELLED an agent progress
update leaves the task unchanged (progress freezes); and a valid transition
into FAILED keeps the last good `progress` value while recording the
error message. -/
theorem progress_monotone_spec :
    (∀ (task : Task) (ops : List Orchestrator.Op),
      task.progress ≤ (Orchestrator.run task ops).progress) ∧
    (∀ (task : Task) (newProgress : Nat) (newMetadata : List (String × String)),
      task.state = .failed ∨ task.state = .cancelled →
      Orchestrator.applyOp task (.agentUpdate newProgress newMetadata) = task) ∧
    (∀ (task : Task) (message : String) (actor : Actor)
        (context : List (String × String)) (time : Int),
      StateMachine.validateTransition task.state .failed = true →
      (Orchestrator.applyOp task
          (.transition .failed (some message) actor context time)).state = .failed ∧
      (Orchestrator.applyOp task
          (.transition .failed (some message) actor context time)).progress
        = task.progress ∧
      (Orchestrator.applyOp task
          (.transition .failed (some message) actor context time)).errorMessage
        = some message) := by
  refine ⟨fun task ops => Orchestrator.run_progress_le ops task, ?_, ?_⟩
  · intro task newProgress newMetadata hterm
    simp only [Orchestrator.applyOp]
    rw [if_pos hterm]
  · intro task message actor context time hvalid
    have hna : task.state ≠ .awaiting_documents := by
      intro he
      rw [he] at hvalid
      exact absurd hvalid (by decide)
    simp only [Orchestrator.applyOp, StateMachine.apply]
    rw [if_neg (by simp [hvalid])]
    rw [if_neg (by simp [hna])]
    simp

/-- Witness for C5: a concrete PENDING task moved to FAILED keeps progress
40 and records the message. -/
theorem progress_monotone_witness :
    (Orchestrator.applyOp
        { id := "t1", title := "T", state := .pending, priority := .high,
          progress := 40, updatedAt := 0, deadline := none, completedAt := none,
          errorMessage := none, requiredDocuments := [], submittedDocuments := [],
          metadata := [] }
        (.transition .failed (some "portal rejected") .system [] 5)).state
      = .failed ∧
    (Orchestrator.applyOp
        { id := "t1", title := "T", state := .pending, priority := .high,
          progress := 40, updatedAt := 0, deadline := none, completedAt := none,
          errorMessage := none, requiredDocuments := [], submittedDocuments := [],
          metadata := [] }
        (.transition .failed (some "portal rejected") .system [] 5)).progress
      = 40 ∧
    (Orchestrator.applyOp
        { id := "t1", title := "T", state := .pending, priority := .high,
          progress := 40, updatedAt := 0, deadline := none, completedAt := none,
          errorMessage := none, requiredDocuments := [], submittedDocuments := [],
          metadata := [] }
        (.transition .failed (some "portal rejected") .system [] 5)).errorMessage
      = some "portal rejected" := by
  exact progress_monotone_spec.2.2
    { id := "t1", title := "T", state := .pending, priority := .high,
      progress := 40, updatedAt := 0, deadline := none, completedAt := none,
      errorMessage := none, requiredDocuments := [], submittedDocuments := [],
      metadata := [] }
    "portal rejected" .system [] 5 (by decide)

theorem Orchestrator.tryDispatch_locked (s : Orchestrator.LockState) (taskId : Nat)
    (h : taskId ∈ s.locked) :
    Orchestrator.tryDispatch s taskId = (s, .rejected) := by
  unfold Orchestrator.tryDispatch
  rw [if_pos h]

theorem Orchestrator.runDispatchAttempts_locked (s : Orchestrator.LockState)
    (taskId : Nat) (h : taskId ∈ s.locked) :
    ∀ n : Nat,
      Orchestrator.runDispatchAttempts s (List.replicate n taskId)
        = (s, List.replicate n .rejected)
  | 0 => rfl
  | n + 1 => by
    simp only [List.replicate, Orchestrator.runDispatchAttempts]
    rw [Orchestrator.tryDispatch_locked s taskId h]
    rw [Orchestrator.runDispatchAttempts_locked s taskId h n]

/-- C3: from a state where the per-task lock of `taskId` is free, any
serialization of `n ≥ 1` dispatch attempts for the same `taskId` has
exactly one `started` outcome and `n - 1` `rejected` ones; a rejected
attempt leaves the lock state unchanged (nothing is queued). -/
theorem dispatch_mutual_exclusion_spec :
    (∀ (s : Orchestrator.LockState) (taskId : Nat) (n : Nat),
      taskId ∉ s.locked → 1 ≤ n →
      (Orchestrator.runDispatchAttempts s (List.replicate n taskId)).2.count .started
          = 1 ∧
      (Orchestrator.runDispatchAttempts s (List.replicate n taskId)).2.count .rejected
          = n - 1) ∧
    (∀ (s : Orchestrator.LockState) (taskId : Nat),
      taskId ∈ s.locked →
      Orchestrator.tryDispatch s taskId = (s, .rejected)) := by
  constructor
  · intro s taskId n hfree hn
    obtain ⟨m, rfl⟩ : ∃ m, n = m + 1 := ⟨n - 1, by omega⟩
    simp only [List.replicate, Orchestrator.runDispatchAttempts]
    have hstart : Orchestrator.tryDispatch s taskId
        = ({ locked := taskId :: s.locked }, .started) := by
      unfold Orchestrator.tryDispatch
      rw [if_neg hfree]
    rw [hstart]
    rw [Orchestrator.runDispatchAttempts_locked
      { locked := taskId :: s.locked } taskId (by simp) m]
    simp [List.count_cons, List.count_replicate]
  · exact Orchestrator.tryDispatch_locked

/-- Witness for C3: three attempts on a free lock give one `started` and
two `rejected` outcomes. -/
theorem dispatch_mutual_exclusion_witness :
    (Orchestrator.runDispatchAttempts { locked := [] }
        (List.replicate 3 7)).2.count .started = 1 ∧
    (Orchestrator.runDispatchAttempts { locked := [] }
        (List.replicate 3 7)).2.count .rejected = 2 := by
  exact dispatch_mutual_exclusion_spec.1 { locked := [] } 7 3 (by simp) (by omega)

/-- C8: the dashboard's urgent-task collection is exactly the tasks with
priority URGENT and state other than COMPLETED — so an URGENT task in
FAILED or CANCELLED still counts as urgent — while the active-task
collection excludes COMPLETED and CANCELLED but keeps FAILED tasks. -/
theorem dashboard_collections_spec :
    (∀ (tasks : List Task) (task : Task),
      task ∈ dashboardUrgentTasks tasks ↔
        task ∈ tasks ∧ task.priority = .urgent ∧ task.state ≠ .completed) ∧
    (∀ (tasks : List Task) (task : Task),
      task ∈ tasks → task.priority = .urgent →
      task.state = .failed ∨ task.state = .cancelled →
      task ∈ dashboardUrgentTasks tasks) ∧
    (∀ (tasks : List Task) (task : Task),
      task ∈ dashboardActiveTasks tasks ↔
        task ∈ tasks ∧ task.state ≠ .completed ∧ task.state ≠ .cancelled) ∧
    (∀ (tasks : List Task) (task : Task),
      task ∈ tasks → task.state = .failed → task ∈ dashboardActiveTasks tasks) := by
  have hu : ∀ (tasks : List Task) (task : Task),
      task ∈ dashboardUrgentTasks tasks ↔
        task ∈ tasks ∧ task.priority = .urgent ∧ task.state ≠ .completed := by
    intro tasks task
    simp [dashboardUrgentTasks, List.mem_filter]
  have ha : ∀ (tasks : List Task) (task : Task),
      task ∈ dashboardActiveTasks tasks ↔
        task ∈ tasks ∧ task.state ≠ .completed ∧ task.state ≠ .cancelled := by
    intro tasks task
    simp [dashboardActiveTasks, List.mem_filter]
  refine ⟨hu, ?_, ha, ?_⟩
  · intro tasks task hmem hpri hstate
    refine (hu tasks task).mpr ⟨hmem, hpri, ?_⟩
    rcases hstate with h | h <;> simp [h]
  · intro tasks task hmem hstate
    exact (ha tasks task).mpr ⟨hmem, by simp [hstate], by simp [hstate]⟩

/-- Witness for C8: a concrete URGENT task in state FAILED appears in both
the urgent and the active dashboard collections. -/
theorem dashboard_collections_witness :
    ({ id := "u1", title := "U", state := .failed, priority := .urgent,
       progress := 50, updatedAt := 0, deadline := none, completedAt := none,
       errorMessage := some "boom", requiredDocuments := [],
       submittedDocuments := [], metadata := [] } : Task)
      ∈ dashboardUrgentTasks
        [{ id := "u1", title := "U", state := .failed, priority := .urgent,
           progress := 50, updatedAt := 0, deadline := none, completedAt := none,
           errorMessage := some "boom", requiredDocuments := [],
           submittedDocuments := [], metadata := [] }] ∧
    ({ id := "u1", title := "U", state := .failed, priority := .urgent,
       progress := 50, updatedAt := 0, deadline := none, completedAt := none,
       errorMessage := some "boom", requiredDocuments := [],
       submittedDocuments := [], metadata := [] } : Task)
      ∈ dashboardActiveTasks
        [{ id := "u1", title := "U", state := .failed, priority := .urgent,
           progress := 50, updatedAt := 0, deadline := none, completedAt := none,
           errorMessage := some "boom", requiredDocuments := [],
           submittedDocuments := [], metadata := [] }] := by
  constructor
  · exact dashboard_collections_spec.2.1 _ _ (by simp) rfl (Or.inl rfl)
  · exact dashboard_collections_spec.2.2.2 _ _ (by simp) rfl

theorem mem_urgencePage_days (now : Int) (tasks : List Task) (u : UrgenceTask)
    (h : u ∈ urgencePageUrgentTasks now tasks) :
    u.daysUntilDeadline = daysUntilDeadlineOf now u.task.deadline := by
  unfold urgencePageUrgentTasks at h
  rw [List.mem_insertionSort] at h
  simp only [List.mem_map] at h
  obtain ⟨t, -, rfl⟩ := h
  rfl

/-- C9: a task without a deadline gets `daysUntilDeadline = 999`; the
urgence page's urgent-task list is sorted by ascending `daysUntilDeadline`;
hence every deadline-less urgent task sits after every urgent task whose
deadline is fewer than 999 days away. -/
theorem urgence_sort_spec :
    (∀ (now : Int) (task : Task),
      task.deadline = none →
      (enhanceUrgentTask now task).daysUntilDeadline = 999) ∧
    (∀ (now : Int) (tasks : List Task),
      (urgencePageUrgentTasks now tasks).Sorted urgenceDeadlineOrder) ∧
    (∀ (now : Int) (tasks : List Task)
        (i j : Fin (urgencePageUrgentTasks now tasks).length),
      ((urgencePageUrgentTasks now tasks).get i).daysUntilDeadline < 999 →
      ((urgencePageUrgentTasks now tasks).get j).task.deadline = none →
      (i : Nat) < (j : Nat)) := by
  refine ⟨?_, ?_, ?_⟩
  · intro now task h
    show daysUntilDeadlineOf now task.deadline = 999
    rw [h]
    rfl
  · intro now tasks
    exact List.sorted_insertionSort urgenceDeadlineOrder _
  · intro now tasks i j hi hj
    have hs : (urgencePageUrgentTasks now tasks).Sorted urgenceDeadlineOrder :=
      List.sorted_insertionSort urgenceDeadlineOrder _
    have hj999 : ((urgencePageUrgentTasks now tasks).get j).daysUntilDeadline = 999 := by
      have hmem := List.get_mem (urgencePageUrgentTasks now tasks) j.1 j.2
      rw [mem_urgencePage_days now tasks _ hmem, hj]
      rfl
    rcases Nat.lt_or_ge j.val i.val with hlt | hge
    · have hrel := List.Sorted.rel_get_of_lt hs (a := j) (b := i) hlt
      unfold urgenceDeadlineOrder at hrel
      rw [hj999] at hrel
      omega
    · rcases Nat.lt_or_ge i.val j.val with hlt2 | hge2
      · exact hlt2
      · have hij : i = j := Fin.ext (by omega)
        rw [hij, hj999] at hi
        omega

/-- Witness for C9: with one urgent task due tomorrow and one urgent task
without a deadline, the deadline-less task gets 999 days and is sorted
after the dated one. -/
theorem urgence_sort_witness :
    (enhanceUrgentTask 0
        { id := "n", title := "N", state := .pending, priority := .urgent,
          progress := 0, updatedAt := 0, deadline := none, completedAt := none,
          errorMessage := none, requiredDocuments := [],
          submittedDocuments := [], metadata := [] }).daysUntilDeadline = 999 ∧
    (0 : Nat) < 1 := by
  constructor
  · exact urgence_sort_spec.1 0
      { id := "n", title := "N", state := .pending, priority := .urgent,
        progress := 0, updatedAt := 0, deadline := none, completedAt := none,
        errorMessage := none, requiredDocuments := [],
        submittedDocuments := [], metadata := [] } rfl
  · exact urgence_sort_spec.2.2 0
      [{ id := "n", title := "N", state := .pending, priority := .urgent,
         progress := 0, updatedAt := 0, deadline := none, completedAt := none,
         errorMessage := none, requiredDocuments := [],
         submittedDocuments := [], metadata := [] },
       { id := "s", title := "S", state := .pending, priority := .urgent,
         progress := 0, updatedAt := 0, deadline := some 86400000,
         completedAt := none, errorMessage := none, requiredDocuments := [],
         submittedDocuments := [], metadata := [] }]
      ⟨0, by decide⟩ ⟨1, by decide⟩ (by decide) (by decide)

theorem sum_map_const_five {α : Type} (l : List α) :
    (l.map (fun _ => (5 : Nat))).sum = 5 * l.length := by
  induction l with
  | nil => rfl
  | cons a t ih =>
    simp [ih]
    ring

/-- C10: `enhanceUrgentTask` estimates 5 minutes per missing document plus
10 minutes for the final review; the missing documents are exactly the
required kinds matched by no submitted document; and the action list is one
upload action per missing document followed by one review action. -/
theorem enhance_actions_spec :
    (∀ (now : Int) (task : Task) (doc : String),
      doc ∈ (enhanceUrgentTask now task).missingDocuments ↔
        (doc ∈ task.requiredDocuments ∧
          ∀ submitted ∈ task.submittedDocuments, submitted.documentType ≠ doc)) ∧
    (∀ (now : Int) (task : Task),
      (enhanceUrgentTask now task).estimatedTimeToComplete
        = 5 * (enhanceUrgentTask now task).missingDocuments.length + 10) ∧
    (∀ (now : Int) (task : Task),
      (enhanceUrgentTask now task).actions.map (fun action => action.id)
        = (enhanceUrgentTask now task).missingDocuments.map
            (fun doc => "upload_" ++ doc) ++ ["review"]) := by
  refine ⟨?_, ?_, ?_⟩
  · intro now task doc
    show doc ∈ missingDocumentsOf task ↔ _
    simp [missingDocumentsOf, List.mem_filter]
  · intro now task
    show (((((missingDocumentsOf task).enum.map (fun indexed =>
        ({ id := "upload_" ++ indexed.2
           label := "Uploader " ++ getDocumentLabel indexed.2
           icon := "upload"
           priority := indexed.1 + 1
           completed := false
           estimatedTime := 5 } : UrgenceAction)))
        ++ [({ id := "review"
               label := "Vérifier les informations"
               icon := "check"
               priority := 100
               completed := decide (task.progress > 80)
               estimatedTime := 10 } : UrgenceAction)]).map
        (fun action : UrgenceAction => action.estimatedTime)).sum : Nat)
      = 5 * (missingDocumentsOf task).length + 10
    rw [List.map_append, List.sum_append, List.map_map]
    rw [show ((fun action : UrgenceAction => action.estimatedTime) ∘
          (fun indexed : Nat × String =>
            ({ id := "upload_" ++ indexed.2
               label := "Uploader " ++ getDocumentLabel indexed.2
               icon := "upload"
               priority := indexed.1 + 1
               completed := false
               estimatedTime := 5 } : UrgenceAction)))
        = (fun _ : Nat × String => (5 : Nat)) from rfl]
    rw [sum_map_const_five, List.enum_length]
    rfl
  · intro now task
    show ((((missingDocumentsOf task).enum.map (fun indexed =>
        ({ id := "upload_" ++ indexed.2
           label := "Uploader " ++ getDocumentLabel indexed.2
           icon := "upload"
           priority := indexed.1 + 1
           completed := false
           estimatedTime := 5 } : UrgenceAction)))
        ++ [({ id := "review"
               label := "Vérifier les informations"
               icon := "check"
               priority := 100
               completed := decide (task.progress > 80)
               estimatedTime := 10 } : UrgenceAction)]).map
        (fun action : UrgenceAction => action.id))
      = (missingDocumentsOf task).map (fun doc => "upload_" ++ doc) ++ ["review"]
    rw [List.map_append, List.map_map]
    rw [show ((fun action : UrgenceAction => action.id) ∘
          (fun indexed : Nat × String =>
            ({ id := "upload_" ++ indexed.2
               label := "Uploader " ++ getDocumentLabel indexed.2
               icon := "upload"
               priority := indexed.1 + 1
               completed := false
               estimatedTime := 5 } : UrgenceAction)))
        = ((fun doc => "upload_" ++ doc) ∘ (Prod.snd : Nat × String → String)) from rfl]
    rw [← List.map_map, List.enum_map_snd]
    rfl

end GAIU
